import Mathlib

/-!
Verification of the pomodoro timer core: the persistence layer
(`src/lib/storage.ts`), the statistics aggregator (`updateStatistics`),
and the timer state machine (`src/components/features/Timer.tsx`).

Modelling conventions:
* JS numbers that hold durations (fractional minutes) are `ℚ`;
  seconds counters and timestamps are `ℤ`/`ℕ`; `Math.round` is `jsRound`.
* A persisted `localStorage` cell is `Option (Option α)`:
  `none` = the key is absent, `some none` = the key holds a string that is
  not valid JSON (so `JSON.parse` throws), `some (some v)` = the string
  parses to the value `v`.  Parsed objects may be missing fields, hence the
  `...Json` record types with `Option` fields, merged against defaults
  exactly where the source spreads `{...DEFAULT, ...parsed}`.
* Calendar dates are day numbers (`ℤ`); "yesterday" is `today - 1`,
  matching the source's comparison of `YYYY-MM-DD` strings.
* Operations that can throw (a `JSON.parse` on a malformed cell) return
  `Except String`.
-/

namespace Pomodoro

/-- Math.round: round half towards positive infinity, as in JS. -/
def jsRound (q : ℚ) : ℤ := ⌊q + 1/2⌋

/-- The phase union type `'focus' | 'break' | 'longBreak'`
(`brk` stands for the source's `'break'`, a Lean keyword). -/
inductive Phase
| focus
| brk
| longBreak
deriving DecidableEq, Repr

/-- `'light' | 'dark' | 'system'` theme union type. -/
inductive Theme
| light
| dark
| system
deriving DecidableEq, Repr

/-- `TimerConfig` from `types/timer.ts`: durations in minutes. -/
structure TimerConfig where
  focusDuration : ℚ
  breakDuration : ℚ
  longBreakDuration : ℚ
  sessionsUntilLongBreak : ℤ
deriving DecidableEq, Repr

/-- `UserPreferences` from `types/timer.ts`. -/
structure UserPreferences where
  theme : Theme
  notifications : Bool
  sound : Bool
  autoStartBreaks : Bool
  autoStartPomodoros : Bool
deriving DecidableEq, Repr

/-- `SessionData` from `storage.ts` (the id is modelled as a number). -/
structure SessionData where
  id : ℕ
  startTime : ℕ
  endTime : ℕ
  phase : Phase
  completed : Bool
  duration : ℤ
deriving DecidableEq, Repr

/-- `Omit SessionData id`: the input to `saveSession`/`updateStatistics`. -/
structure SessionInput where
  startTime : ℕ
  endTime : ℕ
  phase : Phase
  completed : Bool
  duration : ℤ
deriving DecidableEq, Repr

/-- `Statistics` from `storage.ts`; `lastSessionDate` is a day number or null. -/
structure Statistics where
  totalFocusTime : ℤ
  totalBreakTime : ℤ
  completedSessions : ℕ
  dailyStreak : ℕ
  lastSessionDate : Option ℤ
deriving DecidableEq, Repr

/-- `DEFAULT_PREFERENCES` in `storage.ts`. -/
def DEFAULT_PREFERENCES : UserPreferences :=
  { theme := .system
    notifications := true
    sound := true
    autoStartBreaks := true
    autoStartPomodoros := false }

/-- `DEFAULT_CONFIG` in `storage.ts` (0.2, 0.1, 0.15 minutes, 4 sessions). -/
def DEFAULT_CONFIG : TimerConfig :=
  { focusDuration := 1/5
    breakDuration := 1/10
    longBreakDuration := 3/20
    sessionsUntilLongBreak := 4 }

/-- `DEFAULT_STATISTICS` in `storage.ts`. -/
def DEFAULT_STATISTICS : Statistics :=
  { totalFocusTime := 0
    totalBreakTime := 0
    completedSessions := 0
    dailyStreak := 0
    lastSessionDate := none }

/-- A parsed `preferences` JSON object: every field may be missing. -/
structure PrefsJson where
  theme : Option Theme
  notifications : Option Bool
  sound : Option Bool
  autoStartBreaks : Option Bool
  autoStartPomodoros : Option Bool
deriving DecidableEq, Repr

/-- A parsed `timer_config` JSON object: every field may be missing. -/
structure ConfigJson where
  focusDuration : Option ℚ
  breakDuration : Option ℚ
  longBreakDuration : Option ℚ
  sessionsUntilLongBreak : Option ℤ
deriving DecidableEq, Repr

/-- A parsed `statistics` JSON object: every field may be missing
(`lastSessionDate` may also be present and null). -/
structure StatsJson where
  totalFocusTime : Option ℤ
  totalBreakTime : Option ℤ
  completedSessions : Option ℕ
  dailyStreak : Option ℕ
  lastSessionDate : Option (Option ℤ)
deriving DecidableEq, Repr

/-- The four `localStorage` cells used by `storage.ts`
(`pomodoro_preferences`, `pomodoro_config`, `pomodoro_sessions`,
`pomodoro_statistics`).  Each cell: absent / malformed / parsed. -/
structure RawStore where
  preferences : Option (Option PrefsJson)
  timer_config : Option (Option ConfigJson)
  sessions : Option (Option (List SessionData))
  statistics : Option (Option StatsJson)
deriving DecidableEq, Repr

/-- The error a `JSON.parse` on a malformed cell throws. -/
def jsonError : String := "SyntaxError: JSON.parse"

/-- The spread `\x7b...DEFAULT_PREFERENCES, ...parsedPreferences\x7d`. -/
def mergePreferences (p : PrefsJson) : UserPreferences :=
  { theme := p.theme.getD DEFAULT_PREFERENCES.theme
    notifications := p.notifications.getD DEFAULT_PREFERENCES.notifications
    sound := p.sound.getD DEFAULT_PREFERENCES.sound
    autoStartBreaks := p.autoStartBreaks.getD DEFAULT_PREFERENCES.autoStartBreaks
    autoStartPomodoros := p.autoStartPomodoros.getD DEFAULT_PREFERENCES.autoStartPomodoros }

/-- `getPreferences` in `storage.ts`: absent cell falls back to defaults;
a present cell is `JSON.parse`d (throwing on malformed data — there is no
try/catch around the parse) and merged with the defaults. -/
def getPreferences (s : RawStore) : Except String UserPreferences :=
  match s.preferences with
  | none => .ok DEFAULT_PREFERENCES
  | some none => .error jsonError
  | some (some p) => .ok (mergePreferences p)

/-- The field-by-field body of `getTimerConfig`:
`Math.max(0.1, parsedConfig.field ?? DEFAULT_CONFIG.field)` for each
duration and `Math.max(1, ... ?? ...)` for the cycle length.  Note that
`??` replaces only a missing field; a present non-positive value is
clamped to 0.1, never replaced by the default. -/
def clampConfig (p : ConfigJson) : TimerConfig :=
  { focusDuration := max (1/10) (p.focusDuration.getD DEFAULT_CONFIG.focusDuration)
    breakDuration := max (1/10) (p.breakDuration.getD DEFAULT_CONFIG.breakDuration)
    longBreakDuration := max (1/10) (p.longBreakDuration.getD DEFAULT_CONFIG.longBreakDuration)
    sessionsUntilLongBreak := max 1 (p.sessionsUntilLongBreak.getD DEFAULT_CONFIG.sessionsUntilLongBreak) }

/-- `getTimerConfig` in `storage.ts`. -/
def getTimerConfig (s : RawStore) : Except String TimerConfig :=
  match s.timer_config with
  | none => .ok DEFAULT_CONFIG
  | some none => .error jsonError
  | some (some p) => .ok (clampConfig p)

/-- `getSessions` in `storage.ts`: absent cell is the empty history. -/
def getSessions (s : RawStore) : Except String (List SessionData) :=
  match s.sessions with
  | none => .ok []
  | some none => .error jsonError
  | some (some l) => .ok l

/-- The spread `\x7b...DEFAULT_STATISTICS, ...parsedStats\x7d`. -/
def mergeStatistics (p : StatsJson) : Statistics :=
  { totalFocusTime := p.totalFocusTime.getD DEFAULT_STATISTICS.totalFocusTime
    totalBreakTime := p.totalBreakTime.getD DEFAULT_STATISTICS.totalBreakTime
    completedSessions := p.completedSessions.getD DEFAULT_STATISTICS.completedSessions
    dailyStreak := p.dailyStreak.getD DEFAULT_STATISTICS.dailyStreak
    lastSessionDate := p.lastSessionDate.getD DEFAULT_STATISTICS.lastSessionDate }

/-- `getStatistics` in `storage.ts`. -/
def getStatistics (s : RawStore) : Except String Statistics :=
  match s.statistics with
  | none => .ok DEFAULT_STATISTICS
  | some none => .error jsonError
  | some (some p) => .ok (mergeStatistics p)

/-- Serialization of a full preferences record back to a JSON object. -/
def UserPreferences.toJson (u : UserPreferences) : PrefsJson :=
  { theme := some u.theme
    notifications := some u.notifications
    sound := some u.sound
    autoStartBreaks := some u.autoStartBreaks
    autoStartPomodoros := some u.autoStartPomodoros }

/-- Serialization of a full config record back to a JSON object. -/
def TimerConfig.toJson (c : TimerConfig) : ConfigJson :=
  { focusDuration := some c.focusDuration
    breakDuration := some c.breakDuration
    longBreakDuration := some c.longBreakDuration
    sessionsUntilLongBreak := some c.sessionsUntilLongBreak }

/-- Serialization of a full statistics record back to a JSON object. -/
def Statistics.toJson (st : Statistics) : StatsJson :=
  { totalFocusTime := some st.totalFocusTime
    totalBreakTime := some st.totalBreakTime
    completedSessions := some st.completedSessions
    dailyStreak := some st.dailyStreak
    lastSessionDate := some st.lastSessionDate }

/-- `savePreferences` in `storage.ts`: stores
`\x7b...DEFAULT_PREFERENCES, ...preferences\x7d`, which on a fully typed
record is the record itself. -/
def savePreferences (p : UserPreferences) (s : RawStore) : RawStore :=
  { s with preferences := some (some p.toJson) }

/-- The validation object built by `saveTimerConfig`:
`Math.max(0.1, _)` on each duration, `Math.max(1, _)` on the cycle length. -/
def clampConfigFull (c : TimerConfig) : TimerConfig :=
  { focusDuration := max (1/10) c.focusDuration
    breakDuration := max (1/10) c.breakDuration
    longBreakDuration := max (1/10) c.longBreakDuration
    sessionsUntilLongBreak := max 1 c.sessionsUntilLongBreak }

/-- `saveTimerConfig` in `storage.ts`: clamps, then persists. -/
def saveTimerConfig (c : TimerConfig) (s : RawStore) : RawStore :=
  { s with timer_config := some (some (clampConfigFull c).toJson) }

/-- `updateStatistics` in `storage.ts`, acting on the parsed statistics
record; `today` is the current calendar day number at call time. -/
def updateStatistics (today : ℤ) (session : SessionInput) (stats : Statistics) :
    Statistics :=
  let s1 :=
    if session.phase = Phase.focus then
      { stats with totalFocusTime := stats.totalFocusTime + session.duration }
    else
      { stats with totalBreakTime := stats.totalBreakTime + session.duration }
  let s2 :=
    if session.completed then
      { s1 with completedSessions := s1.completedSessions + 1 }
    else s1
  let s3 :=
    match stats.lastSessionDate with
    | some last =>
        if today = last then s2
        else if last = today - 1 then
          { s2 with dailyStreak := s2.dailyStreak + 1 }
        else
          { s2 with dailyStreak := 1 }
    | none => { s2 with dailyStreak := 1 }
  { s3 with lastSessionDate := some today }

/-- The JSON object serialized by `exportData` and parsed by `importData`
(each section is applied only `if (data.section)` is present). -/
structure ExportBlob where
  preferences : Option UserPreferences
  timerConfig : Option TimerConfig
  sessions : Option (List SessionData)
  statistics : Option Statistics
deriving DecidableEq, Repr

/-- `exportData` in `storage.ts`: reads all four sections in order (the
first read that throws on malformed persisted JSON propagates) and
serializes them. -/
def exportData (s : RawStore) : Except String ExportBlob :=
  match getPreferences s with
  | .error e => .error e
  | .ok p =>
    match getTimerConfig s with
    | .error e => .error e
    | .ok c =>
      match getSessions s with
      | .error e => .error e
      | .ok l =>
        match getStatistics s with
        | .error e => .error e
        | .ok st =>
          .ok { preferences := some p, timerConfig := some c,
                sessions := some l, statistics := some st }

/-- `importData` in `storage.ts`: `none` models a blob whose `JSON.parse`
throws (caught; returns false, store untouched).  Preferences and config
go through their save functions; sessions and statistics are stringified
and stored as-is. -/
def importData (blob : Option ExportBlob) (s : RawStore) : Bool × RawStore :=
  match blob with
  | none => (false, s)
  | some d =>
    let s1 := match d.preferences with
      | some p => savePreferences p s
      | none => s
    let s2 := match d.timerConfig with
      | some c => saveTimerConfig c s1
      | none => s1
    let s3 := match d.sessions with
      | some l => { s2 with sessions := some (some l) }
      | none => s2
    let s4 := match d.statistics with
      | some st => { s3 with statistics := some (some st.toJson) }
      | none => s3
    (true, s4)

/-! ## The timer state machine (`Timer.tsx`)

The React component state is flattened into one `Machine` record:
the `TimerState` fields, the loaded `config`, the `isTransitioning`
flag, the pending `setTimeout` callback (phase transition or reset
resolution), the in-progress session start timestamp, the mute flag
derived from preferences, and the persisted session history and
statistics the component writes through `saveSession`. -/

/-- A queued `setTimeout` callback.  Each callback closes over the
component state of the render that scheduled it: the phase-transition
resolution of `handlePhaseComplete` captures `nextPhase`,
`nextSessionCount` and the `config` it will read the next duration
from; the resolution of `resetTimer` captures the `currentPhase` and
`config` its `getCurrentPhaseDuration()` call will see.  Neither
handler ever cancels the other's timeout, so several callbacks can be
outstanding at once. -/
inductive Pending
| phaseResolve (nextPhase : Phase) (nextSessionCount : ℕ) (cfg : TimerConfig)
| resetResolve (capturedPhase : Phase) (cfg : TimerConfig)
deriving DecidableEq, Repr

/-- The whole component state of `Timer.tsx` plus the store cells the
timer writes (session history and statistics, kept in parsed form since
the component itself only ever writes well-formed JSON).  `pending` is
the multiset of outstanding `setTimeout` callbacks, in the order they
were scheduled: the source never clears a timeout it has registered, so
a reset during an unresolved phase transition leaves BOTH callbacks
queued. -/
structure Machine where
  config : TimerConfig
  isRunning : Bool
  isPaused : Bool
  currentPhase : Phase
  timeRemaining : ℤ
  completedSessions : ℕ
  isTransitioning : Bool
  pending : List Pending
  sessionStartTime : Option ℕ
  isMuted : Bool
  sessions : List SessionData
  stats : Statistics
deriving DecidableEq, Repr

/-- `getCurrentPhaseDuration` in `Timer.tsx` (minutes). -/
def getCurrentPhaseDuration (c : TimerConfig) : Phase → ℚ
  | Phase.focus => c.focusDuration
  | Phase.brk => c.breakDuration
  | Phase.longBreak => c.longBreakDuration

/-- `saveCompletedSession` in `Timer.tsx`: a no-op without a session
start timestamp; otherwise builds the record (duration from the
configured phase length, `completed = true`), appends it through
`saveSession` (fresh id), runs `updateStatistics`, and syncs
`completedSessions` from the updated statistics. -/
def saveCompletedSession (m : Machine) (now : ℕ) (today : ℤ) : Machine :=
  match m.sessionStartTime with
  | none => m
  | some t0 =>
    let dur := jsRound (getCurrentPhaseDuration m.config m.currentPhase * 60)
    let input : SessionInput :=
      { startTime := t0, endTime := now, phase := m.currentPhase,
        completed := true, duration := dur }
    let recd : SessionData :=
      { id := m.sessions.length, startTime := t0, endTime := now,
        phase := m.currentPhase, completed := true, duration := dur }
    let newStats := updateStatistics today input m.stats
    { m with sessions := m.sessions ++ [recd], stats := newStats,
             completedSessions := newStats.completedSessions }

/-- `handlePhaseComplete` in `Timer.tsx`: enters the transitioning
window, saves the completed session, computes `nextPhase` and
`nextSessionCount` from the state captured by the closure (the values
before `saveCompletedSession`'s update), and queues the delayed
state switch. -/
def handlePhaseComplete (m : Machine) (now : ℕ) (today : ℤ) : Machine :=
  let m1 := saveCompletedSession { m with isTransitioning := true } now today
  let nextPhase :=
    if m.currentPhase = Phase.focus then
      if ((m.completedSessions : ℤ) + 1) % m.config.sessionsUntilLongBreak = 0 then
        Phase.longBreak
      else Phase.brk
    else Phase.focus
  let nextSessionCount :=
    if m.currentPhase = Phase.focus then m.completedSessions + 1
    else m.completedSessions
  { m1 with
      pending := m1.pending ++ [.phaseResolve nextPhase nextSessionCount m.config] }

/-- `startTimer` in `Timer.tsx`. -/
def startTimer (m : Machine) (now : ℕ) : Machine :=
  { m with isRunning := true, isPaused := false, sessionStartTime := some now }

/-- `pauseTimer` in `Timer.tsx`. -/
def pauseTimer (m : Machine) : Machine :=
  { m with isPaused := true }

/-- The synchronous part of `resetTimer` in `Timer.tsx`: enters the
transitioning window, discards the session start timestamp, and queues
the delayed reset resolution.  It does NOT cancel an already-queued
phase-completion timeout — the source never calls `clearTimeout` — so
the new callback is appended to whatever is still outstanding.  The
callback's `getCurrentPhaseDuration()` closes over the phase and
config of the render that scheduled it, hence the captured payload. -/
def resetTimer (m : Machine) : Machine :=
  { m with isTransitioning := true, sessionStartTime := none,
           pending := m.pending ++ [.resetResolve m.currentPhase m.config] }

/-- `handleSettingsChange` in `Timer.tsx`: re-reads the stored config
(`raw` is the well-formed `timer_config` cell) and preferences, and, if
the timer is not running, recomputes `timeRemaining` from the new focus
duration. -/
def handleSettingsChange (m : Machine) (raw : Option ConfigJson)
    (prefs : UserPreferences) : Machine :=
  let newConfig := match raw with
    | none => DEFAULT_CONFIG
    | some p => clampConfig p
  let m1 := { m with config := newConfig, isMuted := !prefs.sound }
  if m.isRunning then m1
  else { m1 with timeRemaining := jsRound (newConfig.focusDuration * 60) }

/-- The events the machine reacts to.  `tick` carries the wall clock
(`now` for session timestamps, `today` for the streak date).
`resolve i now` is the outstanding `setTimeout` callback at position
`i` of the pending list firing (and being removed): real timer
deadlines fix the firing order, and since the two handlers use
different delays (500ms and 300ms) either relative order of a phase
callback and a later reset callback is realizable depending on how far
apart they were scheduled; the model admits every interleaving, a
sound over-approximation of the realizable ones. -/
inductive Event
| tick (now : ℕ) (today : ℤ)
| start (now : ℕ)
| pause
| reset
| resolve (i : ℕ) (now : ℕ)
| settingsChange (raw : Option ConfigJson) (prefs : UserPreferences)

/-- One step of the machine.  The tick interval only exists while
`isRunning && !isPaused && !isTransitioning` (the effect tears it down
otherwise), so a tick in any other state is a no-op.  A tick with
`timeRemaining <= 0` calls `handlePhaseComplete` and leaves the
countdown unchanged; otherwise it decrements by one. -/
def step (m : Machine) : Event → Machine
  | .tick now today =>
    if m.isRunning ∧ ¬ m.isPaused ∧ ¬ m.isTransitioning then
      if m.timeRemaining ≤ 0 then handlePhaseComplete m now today
      else { m with timeRemaining := m.timeRemaining - 1 }
    else m
  | .start now => startTimer m now
  | .pause => pauseTimer m
  | .reset => resetTimer m
  | .resolve i now =>
    match m.pending.get? i with
    | none => m
    | some (.resetResolve ph cfg) =>
      { m with isRunning := false, isPaused := false,
               timeRemaining := jsRound (getCurrentPhaseDuration cfg ph * 60),
               isTransitioning := false, pending := m.pending.eraseIdx i }
    | some (.phaseResolve np nc cfg) =>
      { m with isRunning := np != Phase.focus,
               currentPhase := np,
               timeRemaining := jsRound (getCurrentPhaseDuration cfg np * 60),
               completedSessions := nc,
               isTransitioning := false, pending := m.pending.eraseIdx i,
               sessionStartTime := if np != Phase.focus then some now
                                   else m.sessionStartTime }
  | .settingsChange raw prefs => handleSettingsChange m raw prefs

/-- The component's initial state: config from `getTimerConfig` (`raw`
is the well-formed `timer_config` cell), countdown from the focus
duration, session counter from the stored statistics, mute flag from
the stored preferences, plus the persisted history/statistics cells. -/
def initMachine (raw : Option ConfigJson) (prefs : UserPreferences)
    (stats0 : Statistics) (sessions0 : List SessionData) : Machine :=
  let cfg := match raw with
    | none => DEFAULT_CONFIG
    | some p => clampConfig p
  { config := cfg
    isRunning := false
    isPaused := false
    currentPhase := Phase.focus
    timeRemaining := jsRound (cfg.focusDuration * 60)
    completedSessions := stats0.completedSessions
    isTransitioning := false
    pending := []
    sessionStartTime := none
    isMuted := !prefs.sound
    sessions := sessions0
    stats := stats0 }

/-- Executing a sequence of events. -/
def run (m : Machine) : List Event → Machine
  | [] => m
  | e :: es => run (step m e) es

/-- The machine states reachable from some initial component state. -/
inductive Reachable : Machine → Prop
| init (raw : Option ConfigJson) (prefs : UserPreferences)
    (stats0 : Statistics) (sessions0 : List SessionData) :
    Reachable (initMachine raw prefs stats0 sessions0)
| step (m : Machine) (e : Event) : Reachable m → Reachable (step m e)

/-- The configuration invariant established by the clamps: every
duration is at least 0.1 minutes and the cycle length at least 1. -/
def ConfigValid (c : TimerConfig) : Prop :=
  1/10 ≤ c.focusDuration ∧ 1/10 ≤ c.breakDuration ∧
  1/10 ≤ c.longBreakDuration ∧ 1 ≤ c.sessionsUntilLongBreak

/-- The config a queued callback closed over is clamped. -/
def PendingValid : Pending → Prop
  | .phaseResolve _ _ cfg => ConfigValid cfg
  | .resetResolve _ cfg => ConfigValid cfg

/-- The machine invariant backing claim C5: the loaded config is
clamped, the countdown is never negative, and every outstanding
callback captured a clamped config. -/
def MachineInv (m : Machine) : Prop :=
  ConfigValid m.config ∧ 0 ≤ m.timeRemaining ∧ ∀ p ∈ m.pending, PendingValid p

/-- Two preference records that agree on every field except possibly
`autoStartBreaks` and `autoStartPomodoros`. -/
def prefsAgree (p q : UserPreferences) : Prop :=
  p.theme = q.theme ∧ p.notifications = q.notifications ∧ p.sound = q.sound

/-- Pointwise agreement of two event sequences: the same commands and
ticks, with the preferences delivered by a settings change allowed to
differ only in the two auto-start fields. -/
inductive eventsAgree : Event → Event → Prop
| tick (now : ℕ) (today : ℤ) : eventsAgree (.tick now today) (.tick now today)
| start (now : ℕ) : eventsAgree (.start now) (.start now)
| pause : eventsAgree .pause .pause
| reset : eventsAgree .reset .reset
| resolve (i : ℕ) (now : ℕ) : eventsAgree (.resolve i now) (.resolve i now)
| settingsChange (raw : Option ConfigJson) (p q : UserPreferences) :
    prefsAgree p q → eventsAgree (.settingsChange raw p) (.settingsChange raw q)

/-- A sample machine state sitting in the transitioning window with a
queued focus → break transition (used to instantiate hypotheses of the
claim theorems on concrete inputs). -/
def mSample : Machine :=
  { config := DEFAULT_CONFIG
    isRunning := true
    isPaused := false
    currentPhase := Phase.focus
    timeRemaining := 0
    completedSessions := 3
    isTransitioning := true
    pending := [.phaseResolve Phase.brk 4 DEFAULT_CONFIG]
    sessionStartTime := some 0
    isMuted := false
    sessions := []
    stats := DEFAULT_STATISTICS }

/-! ## Spec-side definitions for refinement comparisons -/

/-- The configuration-read rule as the spec words it: a duration that is
missing OR `≤ 0` is replaced by the corresponding built-in default, and
the result is re-clamped to a minimum of 0.1 minutes. -/
def specMergedDuration (d : ℚ) (v : Option ℚ) : ℚ :=
  max (1/10) (match v with
    | none => d
    | some x => if x ≤ 0 then d else x)

/-- The configuration-read rule as amended: a missing duration is
replaced by the corresponding built-in default, and the value (present
or defaulted) is clamped to a minimum of 0.1 minutes — a present
non-positive value is clamped to 0.1, not replaced by the default. -/
def amendedMergedDuration (d : ℚ) (v : Option ℚ) : ℚ :=
  match v with
  | none => max (1/10) d
  | some x => max (1/10) x

/-! ## Claim theorems -/

/-- Claim C1: every `recordSession` (`updateStatistics`) call follows
exactly this case split against the current calendar date: no
`lastSessionDate` → streak 1; `lastSessionDate = today` → unchanged;
`lastSessionDate = today - 1` → streak + 1; otherwise (gap ≥ 2 days or
a future date) → streak 1; afterwards `lastSessionDate = today`.  This
holds for every session input, regardless of phase or completed flag. -/
theorem C1_streak_update (today : ℤ) (session : SessionInput)
    (stats : Statistics) :
    (updateStatistics today session stats).lastSessionDate = some today ∧
    (updateStatistics today session stats).dailyStreak =
      (match stats.lastSessionDate with
       | none => 1
       | some last =>
         if last = today then stats.dailyStreak
         else if last = today - 1 then stats.dailyStreak + 1
         else 1) := by
  obtain ⟨tf, tb, cs, ds, lsd⟩ := stats
  obtain ⟨sst, sen, sph, sco, sdu⟩ := session
  refine ⟨rfl, ?_⟩
  rcases lsd with _ | last
  · rcases sph <;> rcases sco <;> rfl
  · rcases sph <;> rcases sco <;>
      simp only [updateStatistics] <;> split_ifs <;> first | rfl | omega

/-- Claim C3 counterexample: the spec says a persisted duration `≤ 0` is
replaced by the built-in default (0.2 minutes for focus) and re-clamped
to 0.1; the code only clamps it to 0.1.  On a store whose persisted
`focusDuration` is `-5`, `getTimerConfig` returns focus duration `1/10`,
while the spec formula yields `1/5`. -/
theorem C3_counterexample :
    (getTimerConfig
        { preferences := none
          timer_config := some (some
            { focusDuration := some (-5), breakDuration := none,
              longBreakDuration := none, sessionsUntilLongBreak := none })
          sessions := none
          statistics := none }).map (fun c => c.focusDuration) =
      .ok (1/10) ∧
    specMergedDuration DEFAULT_CONFIG.focusDuration (some (-5)) = 1/5 ∧
    (1/10 : ℚ) ≠ 1/5 := by
  refine ⟨?_, ?_, by norm_num⟩
  · show Except.ok (clampConfig _).focusDuration = _
    simp only [clampConfig, Option.getD_some, Except.ok.injEq]
    norm_num
  · simp only [specMergedDuration, DEFAULT_CONFIG]
    norm_num

/-- Claim C3 (amended): `getTimerConfig` on a persisted configuration
replaces a missing duration by the built-in default and clamps every
duration (present or defaulted) to a minimum of 0.1 minutes — a present
value `≤ 0` is clamped, not replaced by the default — and clamps
`sessionsUntilLongBreak` to a minimum of 1; `saveTimerConfig` applies
the same clamping before persisting; and neither operation raises an
error for out-of-range input (a well-formed persisted cell always
yields `Except.ok`, and saving is total). -/
theorem C3_amended (s : RawStore) (p : ConfigJson) (c : TimerConfig)
    (h : s.timer_config = some (some p)) :
    getTimerConfig s = .ok
      { focusDuration := amendedMergedDuration DEFAULT_CONFIG.focusDuration p.focusDuration
        breakDuration := amendedMergedDuration DEFAULT_CONFIG.breakDuration p.breakDuration
        longBreakDuration := amendedMergedDuration DEFAULT_CONFIG.longBreakDuration p.longBreakDuration
        sessionsUntilLongBreak := max 1 (p.sessionsUntilLongBreak.getD DEFAULT_CONFIG.sessionsUntilLongBreak) } ∧
    (saveTimerConfig c s).timer_config = some (some
      { focusDuration := some (max (1/10) c.focusDuration)
        breakDuration := some (max (1/10) c.breakDuration)
        longBreakDuration := some (max (1/10) c.longBreakDuration)
        sessionsUntilLongBreak := some (max 1 c.sessionsUntilLongBreak) }) := by
  obtain ⟨f, b, l, u⟩ := p
  constructor
  · unfold getTimerConfig
    rw [h]
    rcases f <;> rcases b <;> rcases l <;> rfl
  · rfl

/-- Claim C3 amended witness: the amended reading rule evaluated on a
concrete store holding `focusDuration = -5` with the other fields
missing, and the clamped persist of a concrete out-of-range config. -/
theorem C3_amended_witness :
    getTimerConfig
        { preferences := none
          timer_config := some (some
            { focusDuration := some (-5), breakDuration := none,
              longBreakDuration := none, sessionsUntilLongBreak := none })
          sessions := none
          statistics := none } = .ok
      { focusDuration := amendedMergedDuration DEFAULT_CONFIG.focusDuration (some (-5))
        breakDuration := amendedMergedDuration DEFAULT_CONFIG.breakDuration none
        longBreakDuration := amendedMergedDuration DEFAULT_CONFIG.longBreakDuration none
        sessionsUntilLongBreak := max 1 (Option.getD none DEFAULT_CONFIG.sessionsUntilLongBreak) } ∧
    (saveTimerConfig
        { focusDuration := -3, breakDuration := 0, longBreakDuration := 5,
          sessionsUntilLongBreak := 0 }
        { preferences := none
          timer_config := some (some
            { focusDuration := some (-5), breakDuration := none,
              longBreakDuration := none, sessionsUntilLongBreak := none })
          sessions := none
          statistics := none }).timer_config = some (some
      { focusDuration := some (max (1/10) (-3))
        breakDuration := some (max (1/10) 0)
        longBreakDuration := some (max (1/10) 5)
        sessionsUntilLongBreak := some (max 1 0) }) :=
  C3_amended
    { preferences := none
      timer_config := some (some
        { focusDuration := some (-5), breakDuration := none,
          longBreakDuration := none, sessionsUntilLongBreak := none })
      sessions := none
      statistics := none }
    { focusDuration := some (-5), breakDuration := none,
      longBreakDuration := none, sessionsUntilLongBreak := none }
    { focusDuration := -3, breakDuration := 0, longBreakDuration := 5,
      sessionsUntilLongBreak := 0 }
    rfl

/-- Claim C4 counterexample: the spec says malformed persisted JSON is
treated identically to an absent key (defaults, no error), but
`getPreferences` on a store whose preferences cell holds invalid JSON
propagates the `JSON.parse` exception instead of returning the
defaults. -/
theorem C4_counterexample :
    getPreferences
        { preferences := some none, timer_config := none,
          sessions := none, statistics := none } = .error jsonError ∧
    getPreferences
        { preferences := some none, timer_config := none,
          sessions := none, statistics := none } ≠
      .ok DEFAULT_PREFERENCES := by
  exact ⟨rfl, by simp [getPreferences]⟩

/-- Claim C4 (amended): for every read operation, an absent key yields
the defaults (the empty history for sessions) without an error, but a
malformed persisted cell (invalid JSON) is NOT treated like an absent
key: the `JSON.parse` exception propagates to the caller. -/
theorem C4_amended (s : RawStore) :
    getPreferences { s with preferences := none } = .ok DEFAULT_PREFERENCES ∧
    getTimerConfig { s with timer_config := none } = .ok DEFAULT_CONFIG ∧
    getSessions { s with sessions := none } = .ok [] ∧
    getStatistics { s with statistics := none } = .ok DEFAULT_STATISTICS ∧
    getPreferences { s with preferences := some none } = .error jsonError ∧
    getTimerConfig { s with timer_config := some none } = .error jsonError ∧
    getSessions { s with sessions := some none } = .error jsonError ∧
    getStatistics { s with statistics := some none } = .error jsonError := by
  exact ⟨rfl, rfl, rfl, rfl, rfl, rfl, rfl, rfl⟩

/-- Claim C8: after any get or set of the timer configuration, the
returned (and the persisted) values satisfy `focusDuration > 0`,
`breakDuration > 0`, `longBreakDuration > 0` and
`sessionsUntilLongBreak ≥ 1`, regardless of the input values. -/
theorem C8_clamping_invariant (s : RawStore) (c : TimerConfig) :
    (∀ c1, getTimerConfig s = .ok c1 →
      0 < c1.focusDuration ∧ 0 < c1.breakDuration ∧
      0 < c1.longBreakDuration ∧ 1 ≤ c1.sessionsUntilLongBreak) ∧
    (∀ c2, getTimerConfig (saveTimerConfig c s) = .ok c2 →
      0 < c2.focusDuration ∧ 0 < c2.breakDuration ∧
      0 < c2.longBreakDuration ∧ 1 ≤ c2.sessionsUntilLongBreak) ∧
    (0 < (clampConfigFull c).focusDuration ∧
     0 < (clampConfigFull c).breakDuration ∧
     0 < (clampConfigFull c).longBreakDuration ∧
     1 ≤ (clampConfigFull c).sessionsUntilLongBreak) := by
  have hvalid : ∀ p : ConfigJson,
      0 < (clampConfig p).focusDuration ∧ 0 < (clampConfig p).breakDuration ∧
      0 < (clampConfig p).longBreakDuration ∧ 1 ≤ (clampConfig p).sessionsUntilLongBreak := by
    intro p
    refine ⟨lt_of_lt_of_le (by norm_num) (le_max_left _ _),
            lt_of_lt_of_le (by norm_num) (le_max_left _ _),
            lt_of_lt_of_le (by norm_num) (le_max_left _ _),
            le_max_left _ _⟩
  have hfull :
      0 < (clampConfigFull c).focusDuration ∧ 0 < (clampConfigFull c).breakDuration ∧
      0 < (clampConfigFull c).longBreakDuration ∧ 1 ≤ (clampConfigFull c).sessionsUntilLongBreak := by
    refine ⟨lt_of_lt_of_le (by norm_num) (le_max_left _ _),
            lt_of_lt_of_le (by norm_num) (le_max_left _ _),
            lt_of_lt_of_le (by norm_num) (le_max_left _ _),
            le_max_left _ _⟩
  refine ⟨?_, ?_, hfull⟩
  · intro c1 h1
    unfold getTimerConfig at h1
    split at h1
    · cases h1
      refine ⟨by norm_num [DEFAULT_CONFIG], by norm_num [DEFAULT_CONFIG],
              by norm_num [DEFAULT_CONFIG], by norm_num [DEFAULT_CONFIG]⟩
    · exact Except.noConfusion h1
    · cases h1
      exact hvalid _
  · intro c2 h2
    have hget : getTimerConfig (saveTimerConfig c s) =
        .ok (clampConfig (clampConfigFull c).toJson) := rfl
    rw [hget] at h2
    cases h2
    simp only [clampConfig, clampConfigFull, TimerConfig.toJson, Option.getD_some]
    refine ⟨lt_of_lt_of_le (by norm_num) (le_max_left _ _),
            lt_of_lt_of_le (by norm_num) (le_max_left _ _),
            lt_of_lt_of_le (by norm_num) (le_max_left _ _),
            le_max_left _ _⟩

/-- Claim C8 witness: the clamping invariant evaluated at a concrete
store holding an out-of-range config and at a concrete out-of-range
input to save. -/
theorem C8_clamping_invariant_witness :
    (∀ c1, getTimerConfig
        { preferences := none
          timer_config := some (some
            { focusDuration := some (-5), breakDuration := some 0,
              longBreakDuration := none, sessionsUntilLongBreak := some (-2) })
          sessions := none
          statistics := none } = .ok c1 →
      0 < c1.focusDuration ∧ 0 < c1.breakDuration ∧
      0 < c1.longBreakDuration ∧ 1 ≤ c1.sessionsUntilLongBreak) ∧
    (∀ c2, getTimerConfig (saveTimerConfig
        { focusDuration := -3, breakDuration := 0, longBreakDuration := -1,
          sessionsUntilLongBreak := 0 }
        { preferences := none, timer_config := none,
          sessions := none, statistics := none }) = .ok c2 →
      0 < c2.focusDuration ∧ 0 < c2.breakDuration ∧
      0 < c2.longBreakDuration ∧ 1 ≤ c2.sessionsUntilLongBreak) ∧
    (0 < (clampConfigFull
        { focusDuration := -3, breakDuration := 0, longBreakDuration := -1,
          sessionsUntilLongBreak := 0 }).focusDuration ∧
     0 < (clampConfigFull
        { focusDuration := -3, breakDuration := 0, longBreakDuration := -1,
          sessionsUntilLongBreak := 0 }).breakDuration ∧
     0 < (clampConfigFull
        { focusDuration := -3, breakDuration := 0, longBreakDuration := -1,
          sessionsUntilLongBreak := 0 }).longBreakDuration ∧
     1 ≤ (clampConfigFull
        { focusDuration := -3, breakDuration := 0, longBreakDuration := -1,
          sessionsUntilLongBreak := 0 }).sessionsUntilLongBreak) :=
  C8_clamping_invariant _ _

/-! ## Helper lemmas about the machine -/

theorem saveCompletedSession_config (m : Machine) (now : ℕ) (today : ℤ) :
    (saveCompletedSession m now today).config = m.config := by
  unfold saveCompletedSession
  split <;> rfl

theorem saveCompletedSession_timeRemaining (m : Machine) (now : ℕ) (today : ℤ) :
    (saveCompletedSession m now today).timeRemaining = m.timeRemaining := by
  unfold saveCompletedSession
  split <;> rfl

theorem saveCompletedSession_isTransitioning (m : Machine) (now : ℕ) (today : ℤ) :
    (saveCompletedSession m now today).isTransitioning = m.isTransitioning := by
  unfold saveCompletedSession
  split <;> rfl

theorem saveCompletedSession_pending (m : Machine) (now : ℕ) (today : ℤ) :
    (saveCompletedSession m now today).pending = m.pending := by
  unfold saveCompletedSession
  split <;> rfl

theorem handlePhaseComplete_config (m : Machine) (now : ℕ) (today : ℤ) :
    (handlePhaseComplete m now today).config = m.config := by
  unfold handlePhaseComplete
  exact saveCompletedSession_config _ _ _

theorem handlePhaseComplete_timeRemaining (m : Machine) (now : ℕ) (today : ℤ) :
    (handlePhaseComplete m now today).timeRemaining = m.timeRemaining := by
  unfold handlePhaseComplete
  exact saveCompletedSession_timeRemaining _ _ _

theorem handlePhaseComplete_isTransitioning (m : Machine) (now : ℕ) (today : ℤ) :
    (handlePhaseComplete m now today).isTransitioning = true := by
  unfold handlePhaseComplete
  exact saveCompletedSession_isTransitioning _ _ _

theorem handlePhaseComplete_pending (m : Machine) (now : ℕ) (today : ℤ) :
    (handlePhaseComplete m now today).pending = m.pending ++ [.phaseResolve
      (if m.currentPhase = Phase.focus then
         if ((m.completedSessions : ℤ) + 1) % m.config.sessionsUntilLongBreak = 0
         then Phase.longBreak else Phase.brk
       else Phase.focus)
      (if m.currentPhase = Phase.focus then m.completedSessions + 1
       else m.completedSessions)
      m.config] := by
  show (saveCompletedSession _ _ _).pending ++ _ = _
  rw [saveCompletedSession_pending]

/-- The tick interval does not exist while transitioning: a tick event
in that window is a no-op. -/
theorem tick_noop_of_transitioning (m : Machine) (now : ℕ) (today : ℤ)
    (h : m.isTransitioning = true) : step m (.tick now today) = m := by
  simp only [step]
  rw [if_neg]
  simp [h]

/-- Claim C2: whenever `phaseComplete` fires, the queued transition
carries as next phase: from `focus`, `longBreak` when
`(completedSessions + 1) mod sessionsUntilLongBreak = 0` and `brk`
otherwise; from `brk` or `longBreak`, always `focus`.  When the
transition resolves, `completedSessions` has been incremented by 1
exactly when the completed phase was `focus`. -/
theorem C2_next_phase (m : Machine) (now t2 : ℕ) (today : ℤ) :
    (handlePhaseComplete m now today).pending = m.pending ++ [.phaseResolve
      (match m.currentPhase with
       | Phase.focus =>
         if ((m.completedSessions : ℤ) + 1) % m.config.sessionsUntilLongBreak = 0
         then Phase.longBreak else Phase.brk
       | Phase.brk => Phase.focus
       | Phase.longBreak => Phase.focus)
      (match m.currentPhase with
       | Phase.focus => m.completedSessions + 1
       | Phase.brk => m.completedSessions
       | Phase.longBreak => m.completedSessions)
      m.config] ∧
    (step (handlePhaseComplete m now today)
        (.resolve m.pending.length t2)).currentPhase =
      (match m.currentPhase with
       | Phase.focus =>
         if ((m.completedSessions : ℤ) + 1) % m.config.sessionsUntilLongBreak = 0
         then Phase.longBreak else Phase.brk
       | Phase.brk => Phase.focus
       | Phase.longBreak => Phase.focus) ∧
    (step (handlePhaseComplete m now today)
        (.resolve m.pending.length t2)).completedSessions =
      (match m.currentPhase with
       | Phase.focus => m.completedSessions + 1
       | Phase.brk => m.completedSessions
       | Phase.longBreak => m.completedSessions) := by
  rcases hp : m.currentPhase <;>
    refine ⟨?_, ?_, ?_⟩ <;>
      simp only [handlePhaseComplete_pending, hp, step, if_true, if_false,
                 List.get?_concat_length] <;> rfl

/-- Claim C6: resolving a queued phase transition (wherever it sits in
the outstanding-callback list) sets `currentPhase = nextPhase`,
`timeRemaining` to the next phase's configured duration in seconds
rounded to the nearest integer (read from the config the completion
handler closed over), and `isRunning = (nextPhase != focus)` — breaks
and long breaks auto-start and focus does not — independent of any
preference value (the resolution reads no preference field). -/
theorem C6_resolution_auto_start (m : Machine) (np : Phase) (nc : ℕ)
    (i now : ℕ) (cfg : TimerConfig)
    (h : m.pending.get? i = some (.phaseResolve np nc cfg)) :
    (step m (.resolve i now)).currentPhase = np ∧
    (step m (.resolve i now)).timeRemaining =
      jsRound (getCurrentPhaseDuration cfg np * 60) ∧
    (step m (.resolve i now)).isRunning = (np != Phase.focus) := by
  refine ⟨?_, ?_, ?_⟩ <;> simp only [step, h]

/-- Claim C6 witness: the resolution rule at a concrete transitioning
machine whose queued next phase is `brk`. -/
theorem C6_resolution_auto_start_witness :
    (step mSample (.resolve 0 7)).currentPhase = Phase.brk ∧
    (step mSample (.resolve 0 7)).timeRemaining =
      jsRound (getCurrentPhaseDuration DEFAULT_CONFIG Phase.brk * 60) ∧
    (step mSample (.resolve 0 7)).isRunning = (Phase.brk != Phase.focus) :=
  C6_resolution_auto_start mSample Phase.brk 4 0 7 DEFAULT_CONFIG rfl

/-- Claim C7 counterexample: `resetTimer` never cancels an outstanding
phase-completion timeout, so both callbacks fire.  From `mSample`
(`currentPhase = focus`, `completedSessions = 3`, a queued
focus → break transition), invoking reset and then letting the two
timeouts fire — the reset callback first, then the phase callback, the
order realized when reset is clicked within 200ms of the completion —
leaves `currentPhase = brk` (changed), `completedSessions = 4`
(incremented), and `isRunning = true` (not Idle), falsifying "for
every timer state, reset transitions to Idle ... currentPhase and
completedSessions are unchanged". -/
theorem C7_counterexample :
    mSample.currentPhase = Phase.focus ∧
    mSample.completedSessions = 3 ∧
    (step (step (step mSample .reset) (.resolve 1 7))
        (.resolve 0 8)).currentPhase = Phase.brk ∧
    (step (step (step mSample .reset) (.resolve 1 7))
        (.resolve 0 8)).completedSessions = 4 ∧
    (step (step (step mSample .reset) (.resolve 1 7))
        (.resolve 0 8)).isRunning = true :=
  ⟨rfl, rfl, rfl, rfl, rfl⟩

/-- Claim C7 (amended): `reset` immediately discards the in-progress
session start timestamp and creates no session record; it does not
cancel an already-queued phase-completion timeout, so that timeout
still fires and applies its transition.  When no callback is
outstanding at reset time — every non-transitioning state — the
delayed reset resolution yields Idle (`isRunning = false`,
`isPaused = false`), sets `timeRemaining` to the configured duration in
seconds of the phase captured at reset invocation (the current phase,
e.g. 1500 for a 25-minute focus even when invoked while Running with
`timeRemaining = 37`), and leaves `currentPhase` and
`completedSessions` unchanged. -/
theorem C7_reset_amended (m : Machine) (now : ℕ) (h : m.pending = []) :
    (step m .reset).sessionStartTime = none ∧
    (step m .reset).sessions = m.sessions ∧
    (step (step m .reset) (.resolve 0 now)).isRunning = false ∧
    (step (step m .reset) (.resolve 0 now)).isPaused = false ∧
    (step (step m .reset) (.resolve 0 now)).timeRemaining =
      jsRound (getCurrentPhaseDuration m.config m.currentPhase * 60) ∧
    (step (step m .reset) (.resolve 0 now)).currentPhase = m.currentPhase ∧
    (step (step m .reset) (.resolve 0 now)).completedSessions = m.completedSessions ∧
    (step (step m .reset) (.resolve 0 now)).sessions = m.sessions ∧
    (step (step m .reset) (.resolve 0 now)).sessionStartTime = none ∧
    (step (step m .reset) (.resolve 0 now)).pending = [] := by
  have hpl : (resetTimer m).pending =
      [Pending.resetResolve m.currentPhase m.config] := by
    show m.pending ++ _ = _
    rw [h]
    rfl
  have hp : (resetTimer m).pending.get? 0 =
      some (Pending.resetResolve m.currentPhase m.config) := by
    rw [hpl]
    rfl
  refine ⟨rfl, rfl, ?_, ?_, ?_, ?_, ?_, ?_, ?_, ?_⟩ <;>
    simp only [step, hp, hpl] <;> rfl

/-- Claim C7 amended witness: reset from a concrete non-transitioning
machine state (the freshly initialized one), with its single queued
callback resolved. -/
theorem C7_reset_amended_witness :
    (step (initMachine none DEFAULT_PREFERENCES DEFAULT_STATISTICS [])
        .reset).sessionStartTime = none ∧
    (step (initMachine none DEFAULT_PREFERENCES DEFAULT_STATISTICS [])
        .reset).sessions =
      (initMachine none DEFAULT_PREFERENCES DEFAULT_STATISTICS []).sessions ∧
    (step (step (initMachine none DEFAULT_PREFERENCES DEFAULT_STATISTICS [])
        .reset) (.resolve 0 7)).isRunning = false ∧
    (step (step (initMachine none DEFAULT_PREFERENCES DEFAULT_STATISTICS [])
        .reset) (.resolve 0 7)).isPaused = false ∧
    (step (step (initMachine none DEFAULT_PREFERENCES DEFAULT_STATISTICS [])
        .reset) (.resolve 0 7)).timeRemaining =
      jsRound (getCurrentPhaseDuration
        (initMachine none DEFAULT_PREFERENCES DEFAULT_STATISTICS []).config
        (initMachine none DEFAULT_PREFERENCES DEFAULT_STATISTICS []).currentPhase
        * 60) ∧
    (step (step (initMachine none DEFAULT_PREFERENCES DEFAULT_STATISTICS [])
        .reset) (.resolve 0 7)).currentPhase =
      (initMachine none DEFAULT_PREFERENCES DEFAULT_STATISTICS []).currentPhase ∧
    (step (step (initMachine none DEFAULT_PREFERENCES DEFAULT_STATISTICS [])
        .reset) (.resolve 0 7)).completedSessions =
      (initMachine none DEFAULT_PREFERENCES DEFAULT_STATISTICS []).completedSessions ∧
    (step (step (initMachine none DEFAULT_PREFERENCES DEFAULT_STATISTICS [])
        .reset) (.resolve 0 7)).sessions =
      (initMachine none DEFAULT_PREFERENCES DEFAULT_STATISTICS []).sessions ∧
    (step (step (initMachine none DEFAULT_PREFERENCES DEFAULT_STATISTICS [])
        .reset) (.resolve 0 7)).sessionStartTime = none ∧
    (step (step (initMachine none DEFAULT_PREFERENCES DEFAULT_STATISTICS [])
        .reset) (.resolve 0 7)).pending = [] :=
  C7_reset_amended (initMachine none DEFAULT_PREFERENCES DEFAULT_STATISTICS [])
    7 rfl

/-! ## The countdown invariant -/

theorem jsRound_nonneg (q : ℚ) (h : 0 ≤ q) : 0 ≤ jsRound q := by
  unfold jsRound
  exact Int.le_floor.mpr (by push_cast; linarith)

theorem getCurrentPhaseDuration_nonneg (c : TimerConfig) (hc : ConfigValid c)
    (p : Phase) : 0 ≤ getCurrentPhaseDuration c p := by
  obtain ⟨h1, h2, h3, h4⟩ := hc
  cases p <;> simp only [getCurrentPhaseDuration] <;> linarith

theorem phase_seconds_nonneg (c : TimerConfig) (hc : ConfigValid c) (p : Phase) :
    0 ≤ jsRound (getCurrentPhaseDuration c p * 60) :=
  jsRound_nonneg _ (by have := getCurrentPhaseDuration_nonneg c hc p; linarith)

theorem clampConfig_valid (p : ConfigJson) : ConfigValid (clampConfig p) :=
  ⟨le_max_left _ _, le_max_left _ _, le_max_left _ _, le_max_left _ _⟩

theorem DEFAULT_CONFIG_valid : ConfigValid DEFAULT_CONFIG := by
  norm_num [ConfigValid, DEFAULT_CONFIG]

theorem loadedConfig_valid (raw : Option ConfigJson) :
    ConfigValid (match raw with
      | none => DEFAULT_CONFIG
      | some p => clampConfig p) := by
  rcases raw with _ | p
  · exact DEFAULT_CONFIG_valid
  · exact clampConfig_valid p

theorem machineInv_init (raw : Option ConfigJson) (prefs : UserPreferences)
    (stats0 : Statistics) (sessions0 : List SessionData) :
    MachineInv (initMachine raw prefs stats0 sessions0) :=
  ⟨loadedConfig_valid raw, phase_seconds_nonneg _ (loadedConfig_valid raw) Phase.focus,
   by intro p hp; exact absurd hp (List.not_mem_nil p)⟩

theorem pendingValid_append (l : List Pending) (x : Pending)
    (hl : ∀ p ∈ l, PendingValid p) (hx : PendingValid x) :
    ∀ p ∈ l ++ [x], PendingValid p := by
  intro p hp
  rcases List.mem_append.mp hp with h1 | h1
  · exact hl p h1
  · rw [List.mem_singleton.mp h1]
    exact hx

theorem pendingValid_eraseIdx (l : List Pending) (i : ℕ)
    (hl : ∀ p ∈ l, PendingValid p) : ∀ p ∈ l.eraseIdx i, PendingValid p :=
  fun p hp => hl p (List.eraseIdx_subset l i hp)

theorem machineInv_step (m : Machine) (e : Event) (hm : MachineInv m) :
    MachineInv (step m e) := by
  obtain ⟨hc, ht, hpend⟩ := hm
  cases e with
  | tick now today =>
    simp only [step]
    split_ifs with h1 h2
    · refine ⟨by rw [handlePhaseComplete_config]; exact hc,
              by rw [handlePhaseComplete_timeRemaining]; exact ht, ?_⟩
      rw [handlePhaseComplete_pending]
      exact pendingValid_append _ _ hpend hc
    · exact ⟨hc, by show 0 ≤ m.timeRemaining - 1; omega, hpend⟩
    · exact ⟨hc, ht, hpend⟩
  | start now => exact ⟨hc, ht, hpend⟩
  | pause => exact ⟨hc, ht, hpend⟩
  | reset =>
    exact ⟨hc, ht, pendingValid_append _ _ hpend hc⟩
  | resolve i now =>
    simp only [step]
    split
    · exact ⟨hc, ht, hpend⟩
    · rename_i ph cfg heq
      have hv : PendingValid (.resetResolve ph cfg) := hpend _ (List.get?_mem heq)
      exact ⟨hc, phase_seconds_nonneg _ hv _, pendingValid_eraseIdx _ _ hpend⟩
    · rename_i np nc cfg heq
      have hv : PendingValid (.phaseResolve np nc cfg) := hpend _ (List.get?_mem heq)
      exact ⟨hc, phase_seconds_nonneg _ hv _, pendingValid_eraseIdx _ _ hpend⟩
  | settingsChange raw prefs =>
    simp only [step, handleSettingsChange]
    split_ifs
    · exact ⟨loadedConfig_valid raw, ht, hpend⟩
    · exact ⟨loadedConfig_valid raw,
             phase_seconds_nonneg _ (loadedConfig_valid raw) Phase.focus, hpend⟩

theorem reachable_inv (m : Machine) (h : Reachable m) : MachineInv m := by
  induction h with
  | init raw prefs stats0 sessions0 => exact machineInv_init raw prefs stats0 sessions0
  | step m e _ ih => exact machineInv_step m e ih

/-- Claim C5: `timeRemaining ≥ 0` holds in every reachable machine
state; a tick under the running guard with `timeRemaining > 0`
decrements it by exactly 1; a tick with `timeRemaining = 0` invokes the
completion handler exactly once, leaving `timeRemaining` unchanged and
entering the transitioning window; a further tick before the
transition delay resolves is a no-op (so no duplicate completion), and
a tick while transitioning is a no-op. -/
theorem C5_tick_safety (m : Machine) (hm : Reachable m) (now t2 : ℕ)
    (today t3 : ℤ) :
    0 ≤ m.timeRemaining ∧
    (m.isRunning = true → m.isPaused = false → m.isTransitioning = false →
      (0 < m.timeRemaining →
        step m (.tick now today) =
          { m with timeRemaining := m.timeRemaining - 1 }) ∧
      (m.timeRemaining = 0 →
        step m (.tick now today) = handlePhaseComplete m now today ∧
        (step m (.tick now today)).timeRemaining = m.timeRemaining ∧
        (step m (.tick now today)).isTransitioning = true ∧
        step (step m (.tick now today)) (.tick t2 t3) =
          step m (.tick now today))) ∧
    (m.isTransitioning = true → step m (.tick now today) = m) := by
  refine ⟨(reachable_inv m hm).2.1, ?_,
          fun h => tick_noop_of_transitioning m now today h⟩
  intro hr hp htr
  constructor
  · intro hpos
    simp only [step]
    rw [if_pos ⟨hr, by simp [hp], by simp [htr]⟩, if_neg (by omega)]
  · intro h0
    have hstep : step m (.tick now today) = handlePhaseComplete m now today := by
      simp only [step]
      rw [if_pos ⟨hr, by simp [hp], by simp [htr]⟩, if_pos (by omega)]
    refine ⟨hstep, ?_, ?_, ?_⟩
    · rw [hstep, handlePhaseComplete_timeRemaining]
    · rw [hstep, handlePhaseComplete_isTransitioning]
    · rw [hstep]
      exact tick_noop_of_transitioning _ t2 t3
        (handlePhaseComplete_isTransitioning m now today)

/-- Claim C5 witness: the invariant component evaluated at a concrete
initial machine state, with the reachability hypothesis discharged by
the initial-state constructor. -/
theorem C5_tick_safety_witness :
    0 ≤ (initMachine none DEFAULT_PREFERENCES DEFAULT_STATISTICS []).timeRemaining :=
  (C5_tick_safety (initMachine none DEFAULT_PREFERENCES DEFAULT_STATISTICS [])
    (Reachable.init none DEFAULT_PREFERENCES DEFAULT_STATISTICS []) 1 2 3 4).1

/-! ## Noninterference of the auto-start preferences -/

theorem step_eventsAgree (m : Machine) (e1 e2 : Event) (h : eventsAgree e1 e2) :
    step m e1 = step m e2 := by
  cases h with
  | tick now today => rfl
  | start now => rfl
  | pause => rfl
  | reset => rfl
  | resolve i now => rfl
  | settingsChange raw p q hpq => simp only [step, handleSettingsChange, hpq.2.2]

theorem run_eventsAgree (tr1 tr2 : List Event)
    (h : List.Forall₂ eventsAgree tr1 tr2) : ∀ m, run m tr1 = run m tr2 := by
  induction h with
  | nil => intro m; rfl
  | cons h1 h2 ih =>
    intro m
    simp only [run]
    rw [step_eventsAgree m _ _ h1]
    exact ih _

theorem initMachine_prefsAgree (raw : Option ConfigJson) (p q : UserPreferences)
    (hpq : prefsAgree p q) (stats0 : Statistics) (sessions0 : List SessionData) :
    initMachine raw p stats0 sessions0 = initMachine raw q stats0 sessions0 := by
  simp only [initMachine, hpq.2.2]

/-- Claim C10: the timer state machine never reads the
`autoStartBreaks`/`autoStartPomodoros` preference fields: two runs of
the same command/tick sequence whose preferences differ only in those
two fields produce identical timer states (phase, running/paused
flags, countdown, session counter) and identical recorded session
histories. -/
theorem C10_autostart_noninterference (raw : Option ConfigJson)
    (p1 p2 : UserPreferences) (stats0 : Statistics)
    (sessions0 : List SessionData) (tr1 tr2 : List Event)
    (hpref : prefsAgree p1 p2) (htr : List.Forall₂ eventsAgree tr1 tr2) :
    (run (initMachine raw p1 stats0 sessions0) tr1).currentPhase =
      (run (initMachine raw p2 stats0 sessions0) tr2).currentPhase ∧
    (run (initMachine raw p1 stats0 sessions0) tr1).isRunning =
      (run (initMachine raw p2 stats0 sessions0) tr2).isRunning ∧
    (run (initMachine raw p1 stats0 sessions0) tr1).isPaused =
      (run (initMachine raw p2 stats0 sessions0) tr2).isPaused ∧
    (run (initMachine raw p1 stats0 sessions0) tr1).timeRemaining =
      (run (initMachine raw p2 stats0 sessions0) tr2).timeRemaining ∧
    (run (initMachine raw p1 stats0 sessions0) tr1).completedSessions =
      (run (initMachine raw p2 stats0 sessions0) tr2).completedSessions ∧
    (run (initMachine raw p1 stats0 sessions0) tr1).sessions =
      (run (initMachine raw p2 stats0 sessions0) tr2).sessions := by
  have h : run (initMachine raw p1 stats0 sessions0) tr1 =
      run (initMachine raw p2 stats0 sessions0) tr2 := by
    rw [initMachine_prefsAgree raw p1 p2 hpref stats0 sessions0]
    exact run_eventsAgree tr1 tr2 htr _
  rw [h]
  exact ⟨rfl, rfl, rfl, rfl, rfl, rfl⟩

/-- Claim C10 witness: two concrete runs of `start` followed by a tick,
one with the default preferences and one differing from them exactly in
the two auto-start fields, compared observable by observable. -/
theorem C10_autostart_noninterference_witness :
    (run (initMachine none DEFAULT_PREFERENCES DEFAULT_STATISTICS [])
        [Event.start 0, Event.tick 1 0]).currentPhase =
      (run (initMachine none
          { theme := Theme.system, notifications := true, sound := true,
            autoStartBreaks := false, autoStartPomodoros := true }
          DEFAULT_STATISTICS [])
        [Event.start 0, Event.tick 1 0]).currentPhase ∧
    (run (initMachine none DEFAULT_PREFERENCES DEFAULT_STATISTICS [])
        [Event.start 0, Event.tick 1 0]).isRunning =
      (run (initMachine none
          { theme := Theme.system, notifications := true, sound := true,
            autoStartBreaks := false, autoStartPomodoros := true }
          DEFAULT_STATISTICS [])
        [Event.start 0, Event.tick 1 0]).isRunning ∧
    (run (initMachine none DEFAULT_PREFERENCES DEFAULT_STATISTICS [])
        [Event.start 0, Event.tick 1 0]).isPaused =
      (run (initMachine none
          { theme := Theme.system, notifications := true, sound := true,
            autoStartBreaks := false, autoStartPomodoros := true }
          DEFAULT_STATISTICS [])
        [Event.start 0, Event.tick 1 0]).isPaused ∧
    (run (initMachine none DEFAULT_PREFERENCES DEFAULT_STATISTICS [])
        [Event.start 0, Event.tick 1 0]).timeRemaining =
      (run (initMachine none
          { theme := Theme.system, notifications := true, sound := true,
            autoStartBreaks := false, autoStartPomodoros := true }
          DEFAULT_STATISTICS [])
        [Event.start 0, Event.tick 1 0]).timeRemaining ∧
    (run (initMachine none DEFAULT_PREFERENCES DEFAULT_STATISTICS [])
        [Event.start 0, Event.tick 1 0]).completedSessions =
      (run (initMachine none
          { theme := Theme.system, notifications := true, sound := true,
            autoStartBreaks := false, autoStartPomodoros := true }
          DEFAULT_STATISTICS [])
        [Event.start 0, Event.tick 1 0]).completedSessions ∧
    (run (initMachine none DEFAULT_PREFERENCES DEFAULT_STATISTICS [])
        [Event.start 0, Event.tick 1 0]).sessions =
      (run (initMachine none
          { theme := Theme.system, notifications := true, sound := true,
            autoStartBreaks := false, autoStartPomodoros := true }
          DEFAULT_STATISTICS [])
        [Event.start 0, Event.tick 1 0]).sessions :=
  C10_autostart_noninterference none DEFAULT_PREFERENCES
    { theme := Theme.system, notifications := true, sound := true,
      autoStartBreaks := false, autoStartPomodoros := true }
    DEFAULT_STATISTICS [] [Event.start 0, Event.tick 1 0]
    [Event.start 0, Event.tick 1 0] ⟨rfl, rfl, rfl⟩
    (List.Forall₂.cons (eventsAgree.start 0)
      (List.Forall₂.cons (eventsAgree.tick 1 0) List.Forall₂.nil))

/-! ## Export/import round-trip -/

theorem mergePreferences_toJson (p : UserPreferences) :
    mergePreferences p.toJson = p := rfl

theorem mergeStatistics_toJson (st : Statistics) :
    mergeStatistics st.toJson = st := rfl

theorem clampConfigFull_idem (c : TimerConfig) (hc : ConfigValid c) :
    clampConfigFull c = c := by
  obtain ⟨h1, h2, h3, h4⟩ := hc
  simp only [clampConfigFull, max_eq_right h1, max_eq_right h2,
             max_eq_right h3, max_eq_right h4]

theorem clampConfig_toJson (c : TimerConfig) (hc : ConfigValid c) :
    clampConfig c.toJson = c := by
  obtain ⟨h1, h2, h3, h4⟩ := hc
  simp only [clampConfig, TimerConfig.toJson, Option.getD_some,
             max_eq_right h1, max_eq_right h2, max_eq_right h3, max_eq_right h4]

/-- Claim C9: on every persisted store state (each of the four cells
absent or holding parseable JSON — every state the persistence layer
itself can produce, since it only ever writes serialized values),
`importData (exportData s)` succeeds and reproduces an identical
snapshot: reading each of the four sections after the round-trip yields
the same value as reading it before. -/
theorem C9_export_import_roundtrip (s : RawStore)
    (hp : s.preferences ≠ some none) (hc : s.timer_config ≠ some none)
    (hl : s.sessions ≠ some none) (hst : s.statistics ≠ some none) :
    ∃ b, exportData s = .ok b ∧
      (importData (some b) s).1 = true ∧
      getPreferences (importData (some b) s).2 = getPreferences s ∧
      getTimerConfig (importData (some b) s).2 = getTimerConfig s ∧
      getSessions (importData (some b) s).2 = getSessions s ∧
      getStatistics (importData (some b) s).2 = getStatistics s := by
  obtain ⟨P, hP⟩ : ∃ P, getPreferences s = .ok P := by
    unfold getPreferences
    rcases h : s.preferences with _ | (_ | p)
    · exact ⟨_, rfl⟩
    · exact absurd h hp
    · exact ⟨_, rfl⟩
  obtain ⟨C, hC, hCv⟩ : ∃ C, getTimerConfig s = .ok C ∧ ConfigValid C := by
    unfold getTimerConfig
    rcases h : s.timer_config with _ | (_ | p)
    · exact ⟨_, rfl, DEFAULT_CONFIG_valid⟩
    · exact absurd h hc
    · exact ⟨_, rfl, clampConfig_valid p⟩
  obtain ⟨L, hL⟩ : ∃ L, getSessions s = .ok L := by
    unfold getSessions
    rcases h : s.sessions with _ | (_ | l)
    · exact ⟨_, rfl⟩
    · exact absurd h hl
    · exact ⟨_, rfl⟩
  obtain ⟨S, hS⟩ : ∃ S, getStatistics s = .ok S := by
    unfold getStatistics
    rcases h : s.statistics with _ | (_ | st)
    · exact ⟨_, rfl⟩
    · exact absurd h hst
    · exact ⟨_, rfl⟩
  refine ⟨⟨some P, some C, some L, some S⟩, ?_, rfl, ?_, ?_, ?_, ?_⟩
  · unfold exportData
    rw [hP, hC, hL, hS]
  · rw [hP]; rfl
  · rw [hC]
    show Except.ok (clampConfig (clampConfigFull C).toJson) = Except.ok C
    rw [clampConfigFull_idem C hCv, clampConfig_toJson C hCv]
  · rw [hL]; rfl
  · rw [hS]; rfl

/-- Claim C9 witness: the round-trip at a concrete store holding a
persisted out-of-range config, a session history and statistics. -/
theorem C9_export_import_roundtrip_witness :
    ∃ b, exportData
        { preferences := some (some
            { theme := some Theme.dark, notifications := none, sound := some false,
              autoStartBreaks := none, autoStartPomodoros := none })
          timer_config := some (some
            { focusDuration := some 25, breakDuration := some (-1),
              longBreakDuration := none, sessionsUntilLongBreak := some 0 })
          sessions := some (some
            [{ id := 0, startTime := 10, endTime := 22, phase := Phase.focus,
               completed := true, duration := 12 }])
          statistics := some (some
            { totalFocusTime := some 12, totalBreakTime := none,
              completedSessions := some 1, dailyStreak := some 1,
              lastSessionDate := some (some 20000) }) } = .ok b ∧
      (importData (some b)
        { preferences := some (some
            { theme := some Theme.dark, notifications := none, sound := some false,
              autoStartBreaks := none, autoStartPomodoros := none })
          timer_config := some (some
            { focusDuration := some 25, breakDuration := some (-1),
              longBreakDuration := none, sessionsUntilLongBreak := some 0 })
          sessions := some (some
            [{ id := 0, startTime := 10, endTime := 22, phase := Phase.focus,
               completed := true, duration := 12 }])
          statistics := some (some
            { totalFocusTime := some 12, totalBreakTime := none,
              completedSessions := some 1, dailyStreak := some 1,
              lastSessionDate := some (some 20000) }) }).1 = true ∧
      getPreferences (importData (some b)
        { preferences := some (some
            { theme := some Theme.dark, notifications := none, sound := some false,
              autoStartBreaks := none, autoStartPomodoros := none })
          timer_config := some (some
            { focusDuration := some 25, breakDuration := some (-1),
              longBreakDuration := none, sessionsUntilLongBreak := some 0 })
          sessions := some (some
            [{ id := 0, startTime := 10, endTime := 22, phase := Phase.focus,
               completed := true, duration := 12 }])
          statistics := some (some
            { totalFocusTime := some 12, totalBreakTime := none,
              completedSessions := some 1, dailyStreak := some 1,
              lastSessionDate := some (some 20000) }) }).2 =
        getPreferences
        { preferences := some (some
            { theme := some Theme.dark, notifications := none, sound := some false,
              autoStartBreaks := none, autoStartPomodoros := none })
          timer_config := some (some
            { focusDuration := some 25, breakDuration := some (-1),
              longBreakDuration := none, sessionsUntilLongBreak := some 0 })
          sessions := some (some
            [{ id := 0, startTime := 10, endTime := 22, phase := Phase.focus,
               completed := true, duration := 12 }])
          statistics := some (some
            { totalFocusTime := some 12, totalBreakTime := none,
              completedSessions := some 1, dailyStreak := some 1,
              lastSessionDate := some (some 20000) }) } ∧
      getTimerConfig (importData (some b)
        { preferences := some (some
            { theme := some Theme.dark, notifications := none, sound := some false,
              autoStartBreaks := none, autoStartPomodoros := none })
          timer_config := some (some
            { focusDuration := some 25, breakDuration := some (-1),
              longBreakDuration := none, sessionsUntilLongBreak := some 0 })
          sessions := some (some
            [{ id := 0, startTime := 10, endTime := 22, phase := Phase.focus,
               completed := true, duration := 12 }])
          statistics := some (some
            { totalFocusTime := some 12, totalBreakTime := none,
              completedSessions := some 1, dailyStreak := some 1,
              lastSessionDate := some (some 20000) }) }).2 =
        getTimerConfig
        { preferences := some (some
            { theme := some Theme.dark, notifications := none, sound := some false,
              autoStartBreaks := none, autoStartPomodoros := none })
          timer_config := some (some
            { focusDuration := some 25, breakDuration := some (-1),
              longBreakDuration := none, sessionsUntilLongBreak := some 0 })
          sessions := some (some
            [{ id := 0, startTime := 10, endTime := 22, phase := Phase.focus,
               completed := true, duration := 12 }])
          statistics := some (some
            { totalFocusTime := some 12, totalBreakTime := none,
              completedSessions := some 1, dailyStreak := some 1,
              lastSessionDate := some (some 20000) }) } ∧
      getSessions (importData (some b)
        { preferences := some (some
            { theme := some Theme.dark, notifications := none, sound := some false,
              autoStartBreaks := none, autoStartPomodoros := none })
          timer_config := some (some
            { focusDuration := some 25, breakDuration := some (-1),
              longBreakDuration := none, sessionsUntilLongBreak := some 0 })
          sessions := some (some
            [{ id := 0, startTime := 10, endTime := 22, phase := Phase.focus,
               completed := true, duration := 12 }])
          statistics := some (some
            { totalFocusTime := some 12, totalBreakTime := none,
              completedSessions := some 1, dailyStreak := some 1,
              lastSessionDate := some (some 20000) }) }).2 =
        getSessions
        { preferences := some (some
            { theme := some Theme.dark, notifications := none, sound := some false,
              autoStartBreaks := none, autoStartPomodoros := none })
          timer_config := some (some
            { focusDuration := some 25, breakDuration := some (-1),
              longBreakDuration := none, sessionsUntilLongBreak := some 0 })
          sessions := some (some
            [{ id := 0, startTime := 10, endTime := 22, phase := Phase.focus,
               completed := true, duration := 12 }])
          statistics := some (some
            { totalFocusTime := some 12, totalBreakTime := none,
              completedSessions := some 1, dailyStreak := some 1,
              lastSessionDate := some (some 20000) }) } ∧
      getStatistics (importData (some b)
        { preferences := some (some
            { theme := some Theme.dark, notifications := none, sound := some false,
              autoStartBreaks := none, autoStartPomodoros := none })
          timer_config := some (some
            { focusDuration := some 25, breakDuration := some (-1),
              longBreakDuration := none, sessionsUntilLongBreak := some 0 })
          sessions := some (some
            [{ id := 0, startTime := 10, endTime := 22, phase := Phase.focus,
               completed := true, duration := 12 }])
          statistics := some (some
            { totalFocusTime := some 12, totalBreakTime := none,
              completedSessions := some 1, dailyStreak := some 1,
              lastSessionDate := some (some 20000) }) }).2 =
        getStatistics
        { preferences := some (some
            { theme := some Theme.dark, notifications := none, sound := some false,
              autoStartBreaks := none, autoStartPomodoros := none })
          timer_config := some (some
            { focusDuration := some 25, breakDuration := some (-1),
              longBreakDuration := none, sessionsUntilLongBreak := some 0 })
          sessions := some (some
            [{ id := 0, startTime := 10, endTime := 22, phase := Phase.focus,
               completed := true, duration := 12 }])
          statistics := some (some
            { totalFocusTime := some 12, totalBreakTime := none,
              completedSessions := some 1, dailyStreak := some 1,
              lastSessionDate := some (some 20000) }) } :=
  C9_export_import_roundtrip
    { preferences := some (some
        { theme := some Theme.dark, notifications := none, sound := some false,
          autoStartBreaks := none, autoStartPomodoros := none })
      timer_config := some (some
        { focusDuration := some 25, breakDuration := some (-1),
          longBreakDuration := none, sessionsUntilLongBreak := some 0 })
      sessions := some (some
        [{ id := 0, startTime := 10, endTime := 22, phase := Phase.focus,
           completed := true, duration := 12 }])
      statistics := some (some
        { totalFocusTime := some 12, totalBreakTime := none,
          completedSessions := some 1, dailyStreak := some 1,
          lastSessionDate := some (some 20000) }) }
    (by simp) (by simp) (by simp) (by simp)

end Pomodoro
